import Mathlib

/-!
Verification of the Conversational Response Classification and Interactive
Widget Synthesis Engine of the GrabHack chat client.

The code under verification is the ChatBot page component: its response
classifier (isMissingItemsSelection, isGrabCabsDropdownSelection), the option
extractors (parseMissingItemsOptions, parseGrabCabsDropdownOptions), the
widget controller (toggleItemSelection, handleItemSelection, the dropdown
submitSelection), the direct-send bridge (handleSendMessageDirect), the
manual send path (handleSendMessage), the sub-issue selection handler
(handleSubIssueSelect) and the image-upload handler (handleImageUpload).

Texts are modelled as lists of characters; the JavaScript string operations
includes, trim, startsWith, substring, split and the two item regular
expressions are embedded explicitly.  Each handler that performs a network
call is modelled as a pure state transformer parametrised by the outcome of
that call (success with a response payload, or failure), with the point at
which the call is issued made explicit through a separate pre-state
function, so that the sending-guard protocol can be stated.
-/

namespace GrabHack

/-- Text as a list of characters (one JavaScript string code point per entry). -/
abbrev Str := List Char

/-- Embedding of the JavaScript whitespace class used by trim and the regex
class over the characters that occur in this code base. -/
def jsWhitespace (c : Char) : Bool :=
  c == ' ' || c == '\t' || c == '\n' || c == '\r' ||
  c == '\x0b' || c == '\x0c' || c == '\u00A0' || c == '\uFEFF'

/-- Embedding of JavaScript text.includes(pattern): pattern occurs as a
contiguous substring of text. -/
def includes (text pattern : Str) : Bool :=
  text.tails.any fun suffix => pattern.isPrefixOf suffix

/-- Embedding of JavaScript text.trim(): remove leading and trailing
whitespace. -/
def trimChars (cs : Str) : Str :=
  ((cs.dropWhile jsWhitespace).reverse.dropWhile jsWhitespace).reverse

/-- Embedding of JavaScript text.split with a newline separator: every
newline separates two (possibly empty) pieces. -/
def splitOnNl : Str → List Str
  | [] => [[]]
  | c :: cs =>
    if c = '\n' then [] :: splitOnNl cs
    else
      match splitOnNl cs with
      | l :: ls => (c :: l) :: ls
      | [] => [[c]]

/-- Embedding of JavaScript parseInt on a digit-only capture group. -/
def digitsToNat (ds : Str) : Nat :=
  ds.foldl (fun acc c => acc * 10 + (c.toNat - '0'.toNat)) 0

/-- Embedding of JavaScript array.join(separator). -/
def joinSep (sep : Str) : List Str → Str
  | [] => []
  | [x] => x
  | x :: xs => x ++ sep ++ joinSep sep xs

/-- The apostrophe character, used to spell source strings that contain one. -/
def apos : Char := Char.ofNat 39

/-! ## Response classifier (isMissingItemsSelection, isGrabCabsDropdownSelection) -/

/-- Source isMissingItemsSelection: a positive header or numbered-list signal
guarded by five exclusion phrases of the dropdown prompt families. -/
def isMissingItemsSelection (text : Str) : Bool :=
  (includes text "Which items are missing from your order?".data ||
   includes text "Missing Items Selection".data ||
   (includes text "1.".data && includes text "2.".data &&
    includes text "missing".data)) &&
  !includes text "Harassment Report".data &&
  !includes text "Select Harassment Type".data &&
  !includes text "Select Issue Type".data &&
  !includes text "Airport Booking".data &&
  !includes text "Cancellation/Refund".data

/-- Source isGrabCabsDropdownSelection: eight fixed section-header or
report-title phrases. -/
def isGrabCabsDropdownSelection (text : Str) : Bool :=
  includes text "📋 Select Harassment Type:".data ||
  includes text "📋 Select Issue Type:".data ||
  includes text "📋 Select Airport Issue Type:".data ||
  includes text "📋 Select Policy Issue Type:".data ||
  includes text "🚨 **Driver Harassment Report**".data ||
  includes text "🚗 **App/Booking Issues Report**".data ||
  includes text "✈️ **Airport Booking Problems**".data ||
  includes text "💰 **Cancellation/Refund Policy Issues**".data

/-- The classification kinds of the specification. -/
inductive PromptKind
  | plain
  | missingItemsSelection
  | dropdownSelection
deriving DecidableEq, Repr

/-- The classifier of the specification, rule 1 before rule 2, over the two
source predicates. -/
def classify (text : Str) : PromptKind :=
  if isMissingItemsSelection text then PromptKind.missingItemsSelection
  else if isGrabCabsDropdownSelection text then PromptKind.dropdownSelection
  else PromptKind.plain

/-! ## Option extractors (parseMissingItemsOptions, parseGrabCabsDropdownOptions) -/

/-- Tail of both item regular expressions after the anchor: digits, a literal
dot, optional whitespace, then a non-empty remainder captured to the end of
the line.  Returns the two capture groups: the digit string and the
remainder with its leading whitespace consumed greedily (leaving at least
one character for the final non-empty group, as regex backtracking does). -/
def matchDigitsDotRest (cs : Str) : Option (Str × Str) :=
  let digits := cs.takeWhile Char.isDigit
  let rest0 := cs.drop digits.length
  if digits.isEmpty then none
  else
    match rest0 with
    | [] => none
    | c :: rest =>
      if c = '.' then
        if rest.isEmpty then none
        else
          let wsLen := (rest.takeWhile jsWhitespace).length
          some (digits, rest.drop (min wsLen (rest.length - 1)))
      else none

/-- The unanchored checkbox item regular expression: the leftmost checkbox
glyph from which whitespace, digits, a dot, whitespace and a non-empty
remainder follow. -/
def findCheckboxMatch : Str → Option (Str × Str)
  | [] => none
  | c :: cs =>
    if c = '☐' then
      match matchDigitsDotRest (cs.dropWhile jsWhitespace) with
      | some m => some m
      | none => findCheckboxMatch cs
    else findCheckboxMatch cs

/-- First regular expression or, failing that, the second anchored bare
numbered-item one, exactly as the source tries them on each line. -/
def lineItemMatch (line : Str) : Option (Str × Str) :=
  match findCheckboxMatch line with
  | some m => some m
  | none => matchDigitsDotRest line

/-- A missing-items option: sequence number, trimmed label, and the unused
selected field the source initialises to false. -/
structure MissingItem where
  number : Nat
  name : Str
  selected : Bool
deriving DecidableEq, Repr

/-- What one line of a missing-items message contributes: the parsed number
and the trimmed item name, when either regular expression matches. -/
def matchMissingItemLine (line : Str) : Option MissingItem :=
  match lineItemMatch line with
  | some (number, itemName) =>
    some { number := digitsToNat number, name := trimChars itemName, selected := false }
  | none => none

/-- One iteration of the source loop: push the parsed item when the line
matches. -/
def pushMissingItem (items : List MissingItem) (line : Str) : List MissingItem :=
  match matchMissingItemLine line with
  | some item => items ++ [item]
  | none => items

/-- Source parseMissingItemsOptions: split into lines, match each line against
the checkbox regular expression then the bare numbered one, and push the
parsed items in document order. -/
def parseMissingItemsOptions (text : Str) : List MissingItem :=
  (splitOnNl text).foldl pushMissingItem []

/-- What one line of a dropdown message contributes: the trimmed remainder
after the checkbox glyph prefix of the trimmed line, kept only when
non-empty. -/
def dropdownLineMatch (line : Str) : Option Str :=
  if ("☐ ".data).isPrefixOf (trimChars line) then
    let option := trimChars ((trimChars line).drop 2)
    if option.isEmpty then none else some option
  else none

/-- One iteration of the source loop: push the extracted option when the
line matches. -/
def pushDropdownOption (options : List Str) (line : Str) : List Str :=
  match dropdownLineMatch line with
  | some option => options ++ [option]
  | none => options

/-- Source parseGrabCabsDropdownOptions: split into lines, keep the trimmed
remainder of every trimmed line starting with the checkbox glyph, in
document order. -/
def parseGrabCabsDropdownOptions (text : Str) : List Str :=
  (splitOnNl text).foldl pushDropdownOption []

/-! ## Conversation state machine and direct-send bridge

Each network-calling handler is a pure state transformer taking the outcome
of its single network call as a parameter.  The two message ids created in
one handler invocation are modelled as now and now + 1, matching the
source's creation-timestamp-plus-offset scheme; the timestamp field carries
the same clock reading. -/

/-- Message sender. -/
inductive Sender
  | user
  | bot
deriving DecidableEq, Repr

/-- A chat message with the optional structured hints the source attaches to
bot messages (absent fields modelled by their JavaScript-falsy defaults). -/
structure Message where
  id : Nat
  text : Str
  sender : Sender
  timestamp : Nat
  showCategories : Bool := false
  showSubIssues : Bool := false
  requiresImage : Bool := false
  imageRequest : Option Str := none
deriving DecidableEq, Repr

/-- The component state the verified handlers read and write. -/
structure ChatState where
  messages : List Message
  currentInput : Str
  loading : Bool
  selectedCategory : Str
  selectedSubIssue : Str
  showCategorySelection : Bool
  showSubIssueSelection : Bool
deriving DecidableEq, Repr

/-- The payload of a successful chat-endpoint reply; absent fields are none. -/
structure ChatResponse where
  response : Option Str
  requires_image : Option Bool := none
  image_request : Option Str := none
deriving DecidableEq, Repr

/-- JavaScript x or-else default for a possibly absent string: the empty
string is falsy and also falls back. -/
def jsOr (x : Option Str) (d : Str) : Str :=
  match x with
  | some s => if s.isEmpty then d else s
  | none => d

/-- JavaScript x or-else null for a possibly absent string field. -/
def jsOrNull (x : Option Str) : Option Str :=
  match x with
  | some s => if s.isEmpty then none else some s
  | none => none

/-- JavaScript x or-else false for a possibly absent boolean field. -/
def jsOrFalse (x : Option Bool) : Bool :=
  match x with
  | some b => b
  | none => false

/-- The user message a send path appends before its network call. -/
def mkUserMessage (now : Nat) (text : Str) : Message :=
  { id := now, text := text, sender := Sender.user, timestamp := now }

/-- Fallback text used when a successful chat reply carries an empty or
absent response string. -/
def processingApologyText : Str :=
  "I apologize, but I encountered an error processing your request. Please try again.".data

/-- Apology text appended when the chat call itself fails. -/
def chatFailureApologyText : Str :=
  "Sorry, I encountered an error. Please try again or contact support if the issue persists.".data

/-- The single bot message a send path appends after its chat call, for both
outcomes. -/
def directSendBotMessage (now : Nat) (outcome : Except Unit ChatResponse) : Message :=
  match outcome with
  | Except.ok r =>
    { id := now + 1, text := jsOr r.response processingApologyText,
      sender := Sender.bot, timestamp := now,
      requiresImage := jsOrFalse r.requires_image,
      imageRequest := jsOrNull r.image_request }
  | Except.error _ =>
    { id := now + 1, text := chatFailureApologyText,
      sender := Sender.bot, timestamp := now }

/-- State at the instant handleSendMessageDirect issues its chat call: the
user message is appended and the sending guard is set. -/
def directSendPre (s : ChatState) (now : Nat) (messageText : Str) : ChatState :=
  { s with messages := s.messages ++ [mkUserMessage now messageText], loading := true }

/-- Completion of a chat call: the one bot message is appended and the
sending guard is cleared, for both outcomes. -/
def directSendPost (s : ChatState) (now : Nat) (outcome : Except Unit ChatResponse) : ChatState :=
  { s with messages := s.messages ++ [directSendBotMessage now outcome], loading := false }

/-- Source handleSendMessageDirect: rejected while the guard is set,
otherwise append the user message, set the guard, issue the call, append
the one bot message and clear the guard. -/
def handleSendMessageDirect (s : ChatState) (now : Nat) (messageText : Str)
    (outcome : Except Unit ChatResponse) : ChatState :=
  if s.loading then s
  else directSendPost (directSendPre s now messageText) now outcome

/-- State at the instant handleSendMessage issues its chat call: the trimmed
input is appended as the user message, the input buffer is cleared and the
guard is set. -/
def sendMessagePre (s : ChatState) (now : Nat) : ChatState :=
  { s with messages := s.messages ++ [mkUserMessage now (trimChars s.currentInput)],
           currentInput := [], loading := true }

/-- Source handleSendMessage: rejected on empty trimmed input, while the
guard is set, or before a sub-issue is selected; otherwise the same
append/guard/call/append/clear sequence as the direct path. -/
def handleSendMessage (s : ChatState) (now : Nat)
    (outcome : Except Unit ChatResponse) : ChatState :=
  if (trimChars s.currentInput).isEmpty || s.loading || s.selectedSubIssue.isEmpty then s
  else directSendPost (sendMessagePre s now) now outcome

/-! ## Interactive widget controller -/

/-- Source toggleItemSelection: remove the clicked item from the selection
list when an entry with its sequence number is present, otherwise append it. -/
def toggleItemSelection (items : List MissingItem) (selectedItems : List MissingItem)
    (itemIndex : Nat) : List MissingItem :=
  match items.get? itemIndex with
  | none => selectedItems
  | some item =>
    if selectedItems.any fun selected => selected.number == item.number then
      selectedItems.filter fun selected => selected.number != item.number
    else
      selectedItems ++ [item]

/-- A sequence of widget clicks applied to an initially empty selection. -/
def applyToggles (items : List MissingItem) (idxs : List Nat) : List MissingItem :=
  idxs.foldl (toggleItemSelection items) []

/-- The follow-up text handleItemSelection synthesizes from the selection
list, factored out so its three cases can be stated once. -/
def selectionMessageText (selectedItems : List MissingItem) : Str :=
  if selectedItems.length = 0 then "All items are present".data
  else
    let itemNumbers := selectedItems.map fun item => item.number
    let itemNames := selectedItems.map fun item => item.name
    if itemNumbers.length = 1 then
      "Item ".data ++ (Nat.repr (itemNumbers.headD 0)).data ++ " is missing: ".data ++
        itemNames.headD []
    else
      "Items ".data ++ joinSep ", ".data (itemNumbers.map fun n => (Nat.repr n).data) ++
        " are missing: ".data ++ joinSep ", ".data itemNames

/-- Source handleItemSelection: synthesize the follow-up text from the
selection list and route it through the direct-send bridge. -/
def handleItemSelection (s : ChatState) (now : Nat) (items selectedItems : List MissingItem)
    (outcome : Except Unit ChatResponse) : ChatState :=
  if selectedItems.length = 0 then
    handleSendMessageDirect s now ("All items are present".data) outcome
  else
    let itemNumbers := selectedItems.map fun item => item.number
    let itemNames := selectedItems.map fun item => item.name
    if itemNumbers.length = 1 then
      handleSendMessageDirect s now
        ("Item ".data ++ (Nat.repr (itemNumbers.headD 0)).data ++ " is missing: ".data ++
          itemNames.headD []) outcome
    else
      handleSendMessageDirect s now
        ("Items ".data ++ joinSep ", ".data (itemNumbers.map fun n => (Nat.repr n).data) ++
          " are missing: ".data ++ joinSep ", ".data itemNames) outcome

/-- Source GrabCabsDropdownSelector.submitSelection: clicking an option sends
its exact label text through the direct-send bridge in one step (the
selectedOption field it also sets is widget-local display state). -/
def dropdownSubmitSelection (s : ChatState) (now : Nat) (option : Str)
    (outcome : Except Unit ChatResponse) : ChatState :=
  handleSendMessageDirect s now option outcome

/-! ## Sub-issue selection and image upload -/

/-- The reserved identifier for the report-missing-items sub-issue. -/
def missingItemsSubIssueId : Str := "handle_missing_items".data

/-- Fallback text of the specialized missing-items reply when its response
string is empty or absent. -/
def missingItemsApologyText : Str :=
  "I apologize, but I encountered an error. Please try again.".data

/-- The generic please-describe-your-issue default prompt. -/
def defaultPromptText : Str :=
  "Thank you for selecting your issue. Please describe what happened in detail, and I".data ++
    [apos] ++ "ll help you resolve it.".data

/-- The user echo message appended on a sub-issue click. -/
def subIssueEcho (now : Nat) (subIssueName : Str) : Message :=
  { id := now, text := "I selected: ".data ++ subIssueName,
    sender := Sender.user, timestamp := now }

/-- The generic default-prompt bot message. -/
def defaultSubIssueBot (now : Nat) : Message :=
  { id := now + 1, text := defaultPromptText, sender := Sender.bot, timestamp := now }

/-- State at the instant the specialized missing-items call is issued: the
sub-issue is recorded, the echo is appended and the sending guard is set. -/
def subIssueSelectPre (s : ChatState) (now : Nat) (subIssueId subIssueName : Str) : ChatState :=
  { s with selectedSubIssue := subIssueId,
           messages := s.messages ++ [subIssueEcho now subIssueName],
           loading := true }

/-- Source handleSubIssueSelect: record the selection and append the echo;
for the reserved missing-items id, call the dedicated endpoint — on success
its response text (or its own apology fallback) becomes the next bot message
and the handler returns, on failure the guard is cleared and control falls
through to the generic branch; every other id goes to the generic branch
directly, which appends the default prompt. -/
def handleSubIssueSelect (s : ChatState) (now : Nat) (subIssueId subIssueName : Str)
    (outcome : Except Unit (Option Str)) : ChatState :=
  if subIssueId = missingItemsSubIssueId then
    let sp := subIssueSelectPre s now subIssueId subIssueName
    match outcome with
    | Except.ok resp =>
      { sp with
        messages := sp.messages ++
          [{ id := now + 1, text := jsOr resp missingItemsApologyText,
             sender := Sender.bot, timestamp := now }],
        showSubIssueSelection := false, loading := false }
    | Except.error _ =>
      { sp with
        messages := sp.messages ++ [defaultSubIssueBot now],
        showSubIssueSelection := false, loading := false }
  else
    { s with selectedSubIssue := subIssueId,
             messages := s.messages ++ [subIssueEcho now subIssueName, defaultSubIssueBot now],
             showSubIssueSelection := false }

/-- Fallback text of a successful image reply with an empty or absent
response string. -/
def imageFallbackText : Str :=
  "Thank you for the image. Let me analyze it and provide a solution.".data

/-- Apology text appended when the image upload call fails. -/
def imageFailureApologyText : Str :=
  "Sorry, I had trouble processing your image. Please try uploading it again.".data

/-- State at the instant the image call is issued: the guard is set (this
side channel performs no guard check of its own). -/
def imageUploadPre (s : ChatState) : ChatState :=
  { s with loading := true }

/-- Source handleImageUpload after the file is read: set the guard, issue the
image call, append one bot message for either outcome, clear the guard. -/
def handleImageUploadCore (s : ChatState) (now : Nat)
    (outcome : Except Unit (Option Str)) : ChatState :=
  let sp := imageUploadPre s
  let bot : Message :=
    match outcome with
    | Except.ok resp =>
      { id := now, text := jsOr resp imageFallbackText, sender := Sender.bot, timestamp := now }
    | Except.error _ =>
      { id := now, text := imageFailureApologyText, sender := Sender.bot, timestamp := now }
  { sp with messages := sp.messages ++ [bot], loading := false }

/-! ## Claim-side definitions -/

/-- The missing-items positive pattern exactly as claim C5 words it: the
header phrase, or a line matching a bare numbered item together with the
word missing, with the same five exclusion phrases. -/
def claimMissingItemsPattern (text : Str) : Bool :=
  (includes text "Which items are missing from your order?".data ||
   includes text "Missing Items Selection".data ||
   ((splitOnNl text).any (fun line => (matchDigitsDotRest line).isSome) &&
    includes text "missing".data)) &&
  !includes text "Harassment Report".data &&
  !includes text "Select Harassment Type".data &&
  !includes text "Select Issue Type".data &&
  !includes text "Airport Booking".data &&
  !includes text "Cancellation/Refund".data

/-- The Coke and Fries scenario text of the specification. -/
def missingItemsExampleText : Str :=
  "Which items are missing from your order?\n☐ 1. Coke\n☐ 2. Fries".data

/-- The harassment-type scenario text of the specification. -/
def dropdownExampleText : Str :=
  "📋 Select Harassment Type:\n☐ Rude behavior\n☐ Unsafe driving".data

/-! ## Helper lemmas: substring containment -/

theorem includes_eq_true_iff (text pattern : Str) :
    includes text pattern = true ↔ pattern <:+: text := by
  unfold includes
  rw [List.any_eq_true]
  constructor
  · rintro ⟨s, hs, hp⟩
    rw [List.mem_tails] at hs
    rw [List.isPrefixOf_iff_prefix] at hp
    exact List.infix_iff_prefix_suffix.mpr ⟨s, hp, hs⟩
  · intro h
    obtain ⟨s, hp, hs⟩ := List.infix_iff_prefix_suffix.mp h
    exact ⟨s, (List.mem_tails _ _).mpr hs, List.isPrefixOf_iff_prefix.mpr hp⟩

theorem includes_trans (text p q : Str) (hpq : includes p q = true)
    (htp : includes text p = true) : includes text q = true := by
  rw [includes_eq_true_iff] at *
  exact hpq.trans htp

/-! ## Helper lemmas: dropWhile and trim -/

theorem dropWhile_self (p : Char → Bool) (l : Str) :
    (l.dropWhile p).dropWhile p = l.dropWhile p := by
  induction l with
  | nil => rfl
  | cons c cs ih =>
    by_cases h : p c
    · simp only [List.dropWhile_cons, h, if_true]
      exact ih
    · simp [List.dropWhile_cons, h]

theorem head?_dropWhile_not (p : Char → Bool) (l : Str) :
    ∀ x, (l.dropWhile p).head? = some x → p x = false := by
  induction l with
  | nil => intro x hx; simp at hx
  | cons c cs ih =>
    intro x hx
    by_cases h : p c
    · rw [List.dropWhile_cons_of_pos h] at hx
      exact ih x hx
    · rw [List.dropWhile_cons_of_neg h] at hx
      simp only [List.head?_cons, Option.some.injEq] at hx
      rw [← hx]
      exact Bool.eq_false_iff.mpr h

theorem dropWhile_eq_self_of_head? (p : Char → Bool) (l : Str)
    (h : ∀ x, l.head? = some x → p x = false) : l.dropWhile p = l := by
  cases l with
  | nil => rfl
  | cons c cs =>
    have hc := h c rfl
    rw [List.dropWhile_cons_of_neg (by simp [hc])]

theorem getLast?_dropWhile (p : Char → Bool) (l : Str) (h : l.dropWhile p ≠ []) :
    (l.dropWhile p).getLast? = l.getLast? := by
  induction l with
  | nil => simp at h
  | cons c cs ih =>
    by_cases hp : p c
    · rw [List.dropWhile_cons_of_pos hp] at h ⊢
      cases cs with
      | nil => simp at h
      | cons c2 cs2 =>
        rw [List.getLast?_cons_cons]
        exact ih h
    · rw [List.dropWhile_cons_of_neg hp]

theorem head?_not_of_dropWhile_eq_self (p : Char → Bool) (l : Str)
    (heq : l.dropWhile p = l) : ∀ x, l.head? = some x → p x = false := by
  cases l with
  | nil => intro x hx; simp at hx
  | cons c cs =>
    intro x hx
    have hxc : x = c := by
      simp only [List.head?_cons, Option.some.injEq] at hx
      exact hx.symm
    subst hxc
    by_contra hc
    have hc2 : p x = true := by revert hc; cases p x <;> simp
    rw [List.dropWhile_cons_of_pos hc2] at heq
    have hle := (List.dropWhile_suffix (l := cs) p).sublist.length_le
    rw [heq] at hle
    simp at hle

theorem mem_of_getLast?_eq : ∀ (l : Str) (a : Char), l.getLast? = some a → a ∈ l
  | [], a, h => by simp at h
  | [c], a, h => by
    simp only [List.getLast?_singleton, Option.some.injEq] at h
    simp [h]
  | c :: c2 :: cs, a, h => by
    rw [List.getLast?_cons_cons] at h
    exact List.mem_cons_of_mem _ (mem_of_getLast?_eq (c2 :: cs) a h)

theorem trimChars_dropWhile (cs : Str) :
    (trimChars cs).dropWhile jsWhitespace = trimChars cs := by
  apply dropWhile_eq_self_of_head?
  intro x hx
  unfold trimChars at hx
  rw [List.head?_reverse] at hx
  have hvne : (cs.dropWhile jsWhitespace).reverse.dropWhile jsWhitespace ≠ [] := by
    intro hnil
    rw [hnil] at hx
    simp at hx
  rw [getLast?_dropWhile jsWhitespace _ hvne, List.getLast?_reverse] at hx
  exact head?_dropWhile_not jsWhitespace cs x hx

theorem trimChars_reverse_dropWhile (cs : Str) :
    (trimChars cs).reverse.dropWhile jsWhitespace = (trimChars cs).reverse := by
  unfold trimChars
  rw [List.reverse_reverse]
  exact dropWhile_self _ _

theorem trimChars_idem (cs : Str) : trimChars (trimChars cs) = trimChars cs := by
  show (((trimChars cs).dropWhile jsWhitespace).reverse.dropWhile jsWhitespace).reverse
      = trimChars cs
  rw [trimChars_dropWhile, trimChars_reverse_dropWhile, List.reverse_reverse]

theorem trimChars_ne_nil_of_mem (cs : Str) (x : Char) (hx : x ∈ cs)
    (hxws : jsWhitespace x = false) : trimChars cs ≠ [] := by
  unfold trimChars
  intro h
  have h1 : (cs.dropWhile jsWhitespace).reverse.dropWhile jsWhitespace = [] := by
    have := congrArg List.reverse h
    simpa using this
  rw [List.dropWhile_eq_nil_iff] at h1
  cases hu : cs.dropWhile jsWhitespace with
  | nil =>
    rw [List.dropWhile_eq_nil_iff] at hu
    have := hu x hx
    rw [hxws] at this
    exact absurd this (by simp)
  | cons c cs2 =>
    have hc : jsWhitespace c = false :=
      head?_dropWhile_not jsWhitespace cs c (by rw [hu]; rfl)
    have hcmem : c ∈ (cs.dropWhile jsWhitespace).reverse := by
      rw [hu]
      simp
    have := h1 c hcmem
    rw [hc] at this
    exact absurd this (by simp)

/-! ## Helper lemmas: the extraction loops -/

theorem pushMissingItem_foldl : ∀ (ls : List Str) (acc : List MissingItem),
    ls.foldl pushMissingItem acc = acc ++ ls.filterMap matchMissingItemLine := by
  intro ls
  induction ls with
  | nil => intro acc; simp
  | cons l ls ih =>
    intro acc
    rw [List.foldl_cons]
    cases h : matchMissingItemLine l with
    | none =>
      have hb : pushMissingItem acc l = acc := by unfold pushMissingItem; rw [h]
      rw [hb, ih, List.filterMap_cons_none h]
    | some item =>
      have hb : pushMissingItem acc l = acc ++ [item] := by unfold pushMissingItem; rw [h]
      rw [hb, ih, List.filterMap_cons_some h, List.append_assoc]
      rfl

theorem parseMissingItemsOptions_eq_filterMap (t : Str) :
    parseMissingItemsOptions t = (splitOnNl t).filterMap matchMissingItemLine := by
  unfold parseMissingItemsOptions
  rw [pushMissingItem_foldl]
  rfl

theorem pushDropdownOption_foldl : ∀ (ls : List Str) (acc : List Str),
    ls.foldl pushDropdownOption acc = acc ++ ls.filterMap dropdownLineMatch := by
  intro ls
  induction ls with
  | nil => intro acc; simp
  | cons l ls ih =>
    intro acc
    rw [List.foldl_cons]
    cases h : dropdownLineMatch l with
    | none =>
      have hb : pushDropdownOption acc l = acc := by unfold pushDropdownOption; rw [h]
      rw [hb, ih, List.filterMap_cons_none h]
    | some o =>
      have hb : pushDropdownOption acc l = acc ++ [o] := by unfold pushDropdownOption; rw [h]
      rw [hb, ih, List.filterMap_cons_some h, List.append_assoc]
      rfl

theorem parseGrabCabsDropdownOptions_eq_filterMap (t : Str) :
    parseGrabCabsDropdownOptions t = (splitOnNl t).filterMap dropdownLineMatch := by
  unfold parseGrabCabsDropdownOptions
  rw [pushDropdownOption_foldl]
  rfl

/-! A trimmed line that starts with the checkbox glyph and a space always
yields a non-empty option: the trimmed line cannot end in whitespace, so the
remainder after the two prefix characters contains a non-whitespace
character. -/

theorem dropdown_option_ne_nil (line : Str)
    (h : ("☐ ".data).isPrefixOf (trimChars line) = true) :
    trimChars ((trimChars line).drop 2) ≠ [] := by
  rw [List.isPrefixOf_iff_prefix] at h
  obtain ⟨rest, hrest⟩ := h
  have htl : trimChars line = '☐' :: ' ' :: rest := by rw [← hrest]; rfl
  have hdrop : (trimChars line).drop 2 = rest := by rw [htl]; rfl
  rw [hdrop]
  have hnt := trimChars_reverse_dropWhile line
  cases hr : rest with
  | nil =>
    rw [hr] at htl
    rw [htl] at hnt
    exact absurd hnt (by decide)
  | cons r rs =>
    rw [hr] at htl
    have hlast : (trimChars line).getLast? = (r :: rs).getLast? := by
      rw [htl, List.getLast?_cons_cons, List.getLast?_cons_cons]
    obtain ⟨z, hz⟩ : ∃ z, (r :: rs).getLast? = some z := by
      have : (r :: rs).getLast?.isSome := List.getLast?_isSome.mpr (by simp)
      exact Option.isSome_iff_exists.mp this
    have hzws : jsWhitespace z = false := by
      apply head?_not_of_dropWhile_eq_self jsWhitespace (trimChars line).reverse hnt
      rw [List.head?_reverse, hlast, hz]
    exact trimChars_ne_nil_of_mem (r :: rs) z (mem_of_getLast?_eq (r :: rs) z hz) hzws

theorem dropdownLineMatch_eq_some (line : Str)
    (h : ("☐ ".data).isPrefixOf (trimChars line) = true) :
    dropdownLineMatch line = some (trimChars ((trimChars line).drop 2)) := by
  unfold dropdownLineMatch
  rw [if_pos h]
  have hne := dropdown_option_ne_nil line h
  rw [if_neg (by simpa using hne)]

/-! ## Claim C1: mutual exclusivity of the classifier -/

/-- C1 counterexample: a text containing the Airport Issue Type dropdown
header together with the numbered-list missing-items signal satisfies both
classifier predicates at once, because none of the missing-items exclusion
phrases covers that header. -/
theorem c1_counterexample :
    isMissingItemsSelection
        "📋 Select Airport Issue Type:\n☐ 1. Refund not received\n☐ 2. Charged after missing flight".data
      = true ∧
    isGrabCabsDropdownSelection
        "📋 Select Airport Issue Type:\n☐ 1. Refund not received\n☐ 2. Charged after missing flight".data
      = true := by
  constructor <;> decide

/-- C1 (amended): the two structured-prompt predicates are mutually
exclusive for every text that contains none of the three dropdown phrases
the missing-items exclusion list fails to cover (the Airport Issue Type
header, the Policy Issue Type header, and the App/Booking Issues Report
title); each remaining dropdown phrase contains one of the exclusion
phrases, so it forces isMissingItemsSelection to false. -/
theorem c1_amended (t : Str)
    (h3 : includes t "📋 Select Airport Issue Type:".data = false)
    (h4 : includes t "📋 Select Policy Issue Type:".data = false)
    (h6 : includes t "🚗 **App/Booking Issues Report**".data = false) :
    ¬(isMissingItemsSelection t = true ∧ isGrabCabsDropdownSelection t = true) := by
  rintro ⟨hm, hd⟩
  simp only [isMissingItemsSelection, Bool.and_eq_true, Bool.not_eq_true'] at hm
  obtain ⟨⟨⟨⟨⟨-, he1⟩, he2⟩, he3⟩, he4⟩, he5⟩ := hm
  simp only [isGrabCabsDropdownSelection, h3, h4, h6, Bool.or_false, Bool.false_or,
    Bool.or_eq_true] at hd
  rcases hd with (((hd | hd) | hd) | hd) | hd
  · exact absurd (includes_trans t "📋 Select Harassment Type:".data
      "Select Harassment Type".data (by decide) hd) (by simp [he2])
  · exact absurd (includes_trans t "📋 Select Issue Type:".data
      "Select Issue Type".data (by decide) hd) (by simp [he3])
  · exact absurd (includes_trans t "🚨 **Driver Harassment Report**".data
      "Harassment Report".data (by decide) hd) (by simp [he1])
  · exact absurd (includes_trans t "✈️ **Airport Booking Problems**".data
      "Airport Booking".data (by decide) hd) (by simp [he4])
  · exact absurd (includes_trans t "💰 **Cancellation/Refund Policy Issues**".data
      "Cancellation/Refund".data (by decide) hd) (by simp [he5])

/-- C1 witness: the amended exclusivity applied to a concrete harassment
dropdown prompt. -/
theorem c1_amended_witness :
    ¬(isMissingItemsSelection "📋 Select Harassment Type:\n☐ Rude behavior".data = true ∧
      isGrabCabsDropdownSelection "📋 Select Harassment Type:\n☐ Rude behavior".data = true) :=
  c1_amended "📋 Select Harassment Type:\n☐ Rude behavior".data
    (by decide) (by decide) (by decide)

/-! ## Claim C2: click-order stability of the synthesized text -/

/-- C2 counterexample: toggling the two Coke and Fries items in the two
possible click orders yields selection lists with the same final set of
items but different synthesized texts, so the synthesized text is not
independent of click order. -/
theorem c2_counterexample :
    (applyToggles (parseMissingItemsOptions missingItemsExampleText) [1, 0]).Perm
      (applyToggles (parseMissingItemsOptions missingItemsExampleText) [0, 1]) ∧
    selectionMessageText (applyToggles (parseMissingItemsOptions missingItemsExampleText) [0, 1]) ≠
      selectionMessageText (applyToggles (parseMissingItemsOptions missingItemsExampleText) [1, 0]) := by
  constructor <;> decide

/-- C2 (amended): the synthesized text is a deterministic function of the
selection list, whose order is click order rather than extracted-option
order: toggling two distinct items i then j from an empty selection yields
exactly the list with item i before item j, so two click orders over the
same final set can phrase numbers and labels differently. -/
theorem c2_amended (items : List MissingItem) (i j : Nat)
    (hi : i < items.length) (hj : j < items.length)
    (hnum : items[i].number ≠ items[j].number) :
    applyToggles items [i, j] = [items[i], items[j]] := by
  unfold applyToggles
  rw [List.foldl_cons, List.foldl_cons, List.foldl_nil]
  have h1 : toggleItemSelection items [] i = [items[i]] := by
    unfold toggleItemSelection
    rw [List.get?_eq_getElem?, List.getElem?_eq_getElem hi]
    simp
  rw [h1]
  unfold toggleItemSelection
  rw [List.get?_eq_getElem?, List.getElem?_eq_getElem hj]
  simp [hnum]

/-- C2 witness: the amended click-order characterisation applied to the
Coke and Fries items. -/
theorem c2_amended_witness :
    applyToggles [⟨1, "Coke".data, false⟩, ⟨2, "Fries".data, false⟩] [0, 1]
      = [⟨1, "Coke".data, false⟩, ⟨2, "Fries".data, false⟩] :=
  c2_amended [⟨1, "Coke".data, false⟩, ⟨2, "Fries".data, false⟩] 0 1
    (by decide) (by decide) (by decide)

/-! ## Claim C3: the direct-send bridge appends exactly one user and one bot message -/

/-- C3: every handleSendMessageDirect call that passes the sending guard
appends exactly the user message carrying the given text before the call and
exactly one bot message after it, whose text is the response string on a
success with a non-empty response and the generic apology on failure; the
previous history is preserved as an unchanged prefix. -/
theorem c3_direct_send_appends (s : ChatState) (now : Nat) (text : Str)
    (o : Except Unit ChatResponse) (h : s.loading = false) :
    (directSendPre s now text).messages = s.messages ++ [mkUserMessage now text] ∧
    (mkUserMessage now text).sender = Sender.user ∧
    (mkUserMessage now text).text = text ∧
    (handleSendMessageDirect s now text o).messages
      = s.messages ++ [mkUserMessage now text, directSendBotMessage now o] ∧
    (directSendBotMessage now o).sender = Sender.bot ∧
    (∀ r resp, o = Except.ok r → r.response = some resp → resp ≠ [] →
      (directSendBotMessage now o).text = resp) ∧
    (o = Except.error () → (directSendBotMessage now o).text = chatFailureApologyText) := by
  refine ⟨rfl, rfl, rfl, ?_, ?_, ?_, ?_⟩
  · unfold handleSendMessageDirect
    rw [if_neg (by simp [h])]
    unfold directSendPost directSendPre
    simp
  · cases o <;> rfl
  · rintro r resp rfl hresp hne
    show jsOr r.response processingApologyText = resp
    rw [hresp]
    show (if resp.isEmpty = true then processingApologyText else resp) = resp
    rw [if_neg (by simp [hne])]
  · rintro rfl
    rfl

/-- C3 witness: the direct-send bridge evaluated on an empty history and a
failing call. -/
theorem c3_witness :
    (handleSendMessageDirect ⟨[], [], false, [], [], true, false⟩ 0 "hi".data
        (Except.error ())).messages
      = [] ++ [mkUserMessage 0 "hi".data, directSendBotMessage 0 (Except.error ())] :=
  (c3_direct_send_appends ⟨[], [], false, [], [], true, false⟩ 0 "hi".data
    (Except.error ()) rfl).2.2.2.1

/-! ## Claim C4: the sending guard protocol -/

/-- C4: the sending guard is set at the instant each chat, image or
specialized call is issued and is cleared once the handler completes, for
success and failure outcomes alike; while the guard is set, a new send
attempt through handleSendMessage or handleSendMessageDirect returns the
state unchanged. -/
theorem c4_sending_guard (s : ChatState) (now : Nat) (text subIssueName : Str)
    (o : Except Unit ChatResponse) (oi om : Except Unit (Option Str)) :
    (directSendPre s now text).loading = true ∧
    (sendMessagePre s now).loading = true ∧
    (subIssueSelectPre s now missingItemsSubIssueId subIssueName).loading = true ∧
    (imageUploadPre s).loading = true ∧
    (s.loading = false → (handleSendMessageDirect s now text o).loading = false) ∧
    ((trimChars s.currentInput).isEmpty = false → s.loading = false →
      s.selectedSubIssue.isEmpty = false → (handleSendMessage s now o).loading = false) ∧
    (handleImageUploadCore s now oi).loading = false ∧
    (handleSubIssueSelect s now missingItemsSubIssueId subIssueName om).loading = false ∧
    (s.loading = true → handleSendMessageDirect s now text o = s) ∧
    (s.loading = true → handleSendMessage s now o = s) := by
  refine ⟨rfl, rfl, rfl, rfl, ?_, ?_, ?_, ?_, ?_, ?_⟩
  · intro h
    unfold handleSendMessageDirect
    rw [if_neg (by simp [h])]
    rfl
  · intro h1 h2 h3
    unfold handleSendMessage
    rw [if_neg (by simp [h1, h2, h3])]
    rfl
  · cases oi <;> rfl
  · unfold handleSubIssueSelect
    rw [if_pos rfl]
    cases om <;> rfl
  · intro h
    unfold handleSendMessageDirect
    rw [if_pos h]
  · intro h
    unfold handleSendMessage
    rw [if_pos (by simp [h])]

/-- C4 witness: a send attempt while the guard is set leaves the state
unchanged. -/
theorem c4_witness :
    handleSendMessageDirect ⟨[], [], true, [], [], true, false⟩ 0 "hello".data
        (Except.error ())
      = ⟨[], [], true, [], [], true, false⟩ :=
  (c4_sending_guard ⟨[], [], true, [], [], true, false⟩ 0 "hello".data []
    (Except.error ()) (Except.error ()) (Except.error ())).2.2.2.2.2.2.2.2.1 rfl

/-! ## Claim C5: the missing-items classification rule -/

/-- C5 counterexample: a text with bare numbered-list lines and the word
missing, and none of the exclusion phrases, satisfies the pattern exactly as
the claim words it, yet the code classifies it as plain because the source
predicate demands the literal substrings 1. and 2. rather than an arbitrary
numbered-list line. -/
theorem c5_counterexample :
    claimMissingItemsPattern
        "Please check:\n3. Apples\n4. Oranges\nTell us which are missing".data = true ∧
    classify "Please check:\n3. Apples\n4. Oranges\nTell us which are missing".data
      = PromptKind.plain := by
  constructor <;> decide

/-- C5 (amended): for every text that contains one of the two header
phrases, or contains the literal substrings 1. and 2. together with the
word missing, and contains none of the five exclusion phrases, the
classifier yields MissingItemsSelection. -/
theorem c5_amended (t : Str)
    (hpos : includes t "Which items are missing from your order?".data = true ∨
            includes t "Missing Items Selection".data = true ∨
            (includes t "1.".data = true ∧ includes t "2.".data = true ∧
             includes t "missing".data = true))
    (he1 : includes t "Harassment Report".data = false)
    (he2 : includes t "Select Harassment Type".data = false)
    (he3 : includes t "Select Issue Type".data = false)
    (he4 : includes t "Airport Booking".data = false)
    (he5 : includes t "Cancellation/Refund".data = false) :
    classify t = PromptKind.missingItemsSelection := by
  have hm : isMissingItemsSelection t = true := by
    rcases hpos with h | h | ⟨h1, h2, h3⟩
    · simp [isMissingItemsSelection, h, he1, he2, he3, he4, he5]
    · simp [isMissingItemsSelection, h, he1, he2, he3, he4, he5]
    · simp [isMissingItemsSelection, h1, h2, h3, he1, he2, he3, he4, he5]
  unfold classify
  rw [if_pos hm]

/-- C5 witness: the amended rule applied to the Coke and Fries scenario
text. -/
theorem c5_amended_witness :
    classify missingItemsExampleText = PromptKind.missingItemsSelection :=
  c5_amended missingItemsExampleText (Or.inl (by decide))
    (by decide) (by decide) (by decide) (by decide) (by decide)

/-! ## Claim C6: the missing-items extractor -/

theorem matchMissingItemLine_trimmed (l : Str) (it : MissingItem)
    (h : matchMissingItemLine l = some it) : trimChars it.name = it.name := by
  unfold matchMissingItemLine at h
  cases hlm : lineItemMatch l with
  | none =>
    rw [hlm] at h
    exact absurd h (by simp)
  | some m =>
    obtain ⟨number, itemName⟩ := m
    rw [hlm] at h
    simp only [Option.some.injEq] at h
    rw [← h]
    exact trimChars_idem itemName

/-- C6: the extractor is the pure per-line filter of the two item regular
expressions applied in document order; every extracted label is already
trimmed; when no line matches, the result is the empty list; repeated
extraction is identical; and on the Coke and Fries scenario text it returns
the two numbered items. -/
theorem c6_extractor (t : Str) :
    parseMissingItemsOptions t = (splitOnNl t).filterMap matchMissingItemLine ∧
    (∀ it, it ∈ parseMissingItemsOptions t → trimChars it.name = it.name) ∧
    ((∀ l, l ∈ splitOnNl t → matchMissingItemLine l = none) →
      parseMissingItemsOptions t = []) ∧
    parseMissingItemsOptions t = parseMissingItemsOptions t ∧
    parseMissingItemsOptions missingItemsExampleText
      = [⟨1, "Coke".data, false⟩, ⟨2, "Fries".data, false⟩] := by
  refine ⟨parseMissingItemsOptions_eq_filterMap t, ?_, ?_, rfl, by decide⟩
  · intro it hit
    rw [parseMissingItemsOptions_eq_filterMap, List.mem_filterMap] at hit
    obtain ⟨l, _, hl⟩ := hit
    exact matchMissingItemLine_trimmed l it hl
  · intro hall
    rw [parseMissingItemsOptions_eq_filterMap, List.filterMap_eq_nil_iff]
    exact hall

/-- C6 witness: extraction on a text with no matching line returns the empty
list. -/
theorem c6_witness : parseMissingItemsOptions "hello there".data = [] :=
  (c6_extractor "hello there".data).2.2.1 (by decide)

/-! ## Claim C7: the synthesized follow-up texts -/

/-- C7: submission synthesizes exactly the specified texts: the fixed
all-present text for an empty selection, the singular form for one selected
item, the comma-joined plural form for several; handleItemSelection routes
exactly that text through the direct-send bridge; and the Coke and Fries
scenario with both items selected synthesizes the specified sentence. -/
theorem c7_synthesis (s : ChatState) (now : Nat) (items selectedItems : List MissingItem)
    (a b : MissingItem) (rest : List MissingItem) (o : Except Unit ChatResponse) :
    selectionMessageText [] = "All items are present".data ∧
    selectionMessageText [a] =
      "Item ".data ++ (Nat.repr a.number).data ++ " is missing: ".data ++ a.name ∧
    selectionMessageText (a :: b :: rest) =
      "Items ".data ++
        joinSep ", ".data ((a :: b :: rest).map fun it => (Nat.repr it.number).data) ++
        " are missing: ".data ++ joinSep ", ".data ((a :: b :: rest).map fun it => it.name) ∧
    handleItemSelection s now items selectedItems o
      = handleSendMessageDirect s now (selectionMessageText selectedItems) o ∧
    selectionMessageText (applyToggles (parseMissingItemsOptions missingItemsExampleText) [0, 1])
      = "Items 1, 2 are missing: Coke, Fries".data := by
  refine ⟨rfl, ?_, ?_, ?_, by decide⟩
  · simp [selectionMessageText]
  · unfold selectionMessageText
    rw [if_neg (by simp)]
    rw [if_neg (by simp)]
    simp only [List.map_map]
    rfl
  · cases selectedItems with
    | nil => rfl
    | cons x xs =>
      cases xs with
      | nil => rfl
      | cons y ys => rfl

/-! ## Claim C8: the dropdown extractor and single-click submit -/

theorem dropdownLineMatch_some_inv (l : Str) (opt : Str)
    (h : dropdownLineMatch l = some opt) :
    ("☐ ".data).isPrefixOf (trimChars l) = true ∧
    opt = trimChars ((trimChars l).drop 2) := by
  by_cases hpre : ("☐ ".data).isPrefixOf (trimChars l) = true
  · rw [dropdownLineMatch_eq_some l hpre] at h
    simp only [Option.some.injEq] at h
    exact ⟨hpre, h.symm⟩
  · unfold dropdownLineMatch at h
    rw [if_neg hpre] at h
    exact absurd h (by simp)

/-- C8: the dropdown extractor returns, in document order, the trimmed
remainder of exactly the lines whose trimmed form starts with the checkbox
glyph and a space, the empty list when no line matches; and clicking an
option submits exactly that label text through the direct-send bridge in a
single step, appending the one user message carrying the label. -/
theorem c8_dropdown (t : Str) (s : ChatState) (now : Nat) (option : Str)
    (o : Except Unit ChatResponse) :
    parseGrabCabsDropdownOptions t = (splitOnNl t).filterMap dropdownLineMatch ∧
    (∀ l, l ∈ splitOnNl t → ("☐ ".data).isPrefixOf (trimChars l) = true →
      trimChars ((trimChars l).drop 2) ∈ parseGrabCabsDropdownOptions t) ∧
    (∀ opt, opt ∈ parseGrabCabsDropdownOptions t →
      ∃ l, l ∈ splitOnNl t ∧ ("☐ ".data).isPrefixOf (trimChars l) = true ∧
        opt = trimChars ((trimChars l).drop 2)) ∧
    ((∀ l, l ∈ splitOnNl t → ("☐ ".data).isPrefixOf (trimChars l) = false) →
      parseGrabCabsDropdownOptions t = []) ∧
    parseGrabCabsDropdownOptions dropdownExampleText
      = ["Rude behavior".data, "Unsafe driving".data] ∧
    dropdownSubmitSelection s now option o = handleSendMessageDirect s now option o ∧
    (s.loading = false →
      (dropdownSubmitSelection s now option o).messages
        = s.messages ++ [mkUserMessage now option, directSendBotMessage now o]) := by
  refine ⟨parseGrabCabsDropdownOptions_eq_filterMap t, ?_, ?_, ?_, by decide, rfl, ?_⟩
  · intro l hl hpre
    rw [parseGrabCabsDropdownOptions_eq_filterMap, List.mem_filterMap]
    exact ⟨l, hl, dropdownLineMatch_eq_some l hpre⟩
  · intro opt hopt
    rw [parseGrabCabsDropdownOptions_eq_filterMap, List.mem_filterMap] at hopt
    obtain ⟨l, hl, hmatch⟩ := hopt
    obtain ⟨hpre, heq⟩ := dropdownLineMatch_some_inv l opt hmatch
    exact ⟨l, hl, hpre, heq⟩
  · intro hall
    rw [parseGrabCabsDropdownOptions_eq_filterMap, List.filterMap_eq_nil_iff]
    intro l hl
    unfold dropdownLineMatch
    rw [if_neg (by simp [hall l hl])]
  · intro h
    unfold dropdownSubmitSelection handleSendMessageDirect
    rw [if_neg (by simp [h])]
    unfold directSendPost directSendPre
    simp

/-- C8 witness: the unsafe-driving option of the scenario text is extracted
from its checkbox line. -/
theorem c8_witness :
    "Unsafe driving".data ∈ parseGrabCabsDropdownOptions dropdownExampleText := by
  have h := (c8_dropdown dropdownExampleText ⟨[], [], false, [], [], true, false⟩ 0 []
    (Except.error ())).2.1 ("☐ Unsafe driving".data) (by decide) (by decide)
  have he : trimChars ((trimChars "☐ Unsafe driving".data).drop 2) = "Unsafe driving".data := by
    decide
  rw [he] at h
  exact h

/-! ## Claim C9: the specialized missing-items endpoint -/

/-- C9: selecting the reserved missing-items sub-issue appends the echo and,
on success, exactly one bot message carrying the specialized response text
(with its own apology fallback) and not the generic default prompt; on
failure the handler falls through and appends the generic default prompt,
and the guard is cleared on both paths. -/
theorem c9_missing_items_endpoint (s : ChatState) (now : Nat) (subIssueName : Str)
    (resp : Option Str) :
    (handleSubIssueSelect s now missingItemsSubIssueId subIssueName (Except.ok resp)).messages
      = s.messages ++ [subIssueEcho now subIssueName,
          { id := now + 1, text := jsOr resp missingItemsApologyText,
            sender := Sender.bot, timestamp := now }] ∧
    (∀ r, resp = some r → r ≠ [] → jsOr resp missingItemsApologyText = r) ∧
    (handleSubIssueSelect s now missingItemsSubIssueId subIssueName (Except.error ())).messages
      = s.messages ++ [subIssueEcho now subIssueName, defaultSubIssueBot now] ∧
    (handleSubIssueSelect s now missingItemsSubIssueId subIssueName (Except.ok resp)).loading
      = false ∧
    (handleSubIssueSelect s now missingItemsSubIssueId subIssueName (Except.error ())).loading
      = false ∧
    missingItemsApologyText ≠ defaultPromptText := by
  refine ⟨?_, ?_, ?_, ?_, ?_, by decide⟩
  · unfold handleSubIssueSelect
    rw [if_pos rfl]
    unfold subIssueSelectPre
    simp
  · rintro r rfl hne
    show (if r.isEmpty = true then missingItemsApologyText else r) = r
    rw [if_neg (by simp [hne])]
  · unfold handleSubIssueSelect
    rw [if_pos rfl]
    unfold subIssueSelectPre
    simp
  · unfold handleSubIssueSelect
    rw [if_pos rfl]
  · unfold handleSubIssueSelect
    rw [if_pos rfl]

/-- C9 witness: a non-empty specialized response becomes the bot text
unchanged. -/
theorem c9_witness : jsOr (some "OK".data) missingItemsApologyText = "OK".data :=
  (c9_missing_items_endpoint ⟨[], [], false, [], [], true, false⟩ 0 []
    (some "OK".data)).2.1 "OK".data rfl (by decide)

/-! ## Claim C10: empty successful responses render as the apology -/

/-- C10: a successful chat reply whose response string is empty or absent
produces a bot message carrying the fixed processing-apology text while the
requires-image flag and image-request prompt of the reply are still
honoured, on both the manual and the direct send paths. -/
theorem c10_empty_response_fallback (s : ChatState) (now : Nat) (text : Str)
    (ri : Option Bool) (irq : Option Str) (h : s.loading = false) :
    (directSendBotMessage now (Except.ok ⟨some [], ri, irq⟩)).text = processingApologyText ∧
    (directSendBotMessage now (Except.ok ⟨none, ri, irq⟩)).text = processingApologyText ∧
    (directSendBotMessage now (Except.ok ⟨some [], ri, irq⟩)).requiresImage = jsOrFalse ri ∧
    (directSendBotMessage now (Except.ok ⟨some [], ri, irq⟩)).imageRequest = jsOrNull irq ∧
    (handleSendMessageDirect s now text (Except.ok ⟨some [], ri, irq⟩)).messages
      = s.messages ++ [mkUserMessage now text,
          directSendBotMessage now (Except.ok ⟨some [], ri, irq⟩)] ∧
    ((trimChars s.currentInput).isEmpty = false → s.selectedSubIssue.isEmpty = false →
      (handleSendMessage s now (Except.ok ⟨none, ri, irq⟩)).messages
        = s.messages ++ [mkUserMessage now (trimChars s.currentInput),
            directSendBotMessage now (Except.ok ⟨none, ri, irq⟩)]) := by
  refine ⟨rfl, rfl, rfl, rfl, ?_, ?_⟩
  · unfold handleSendMessageDirect
    rw [if_neg (by simp [h])]
    unfold directSendPost directSendPre
    simp
  · intro h1 h3
    unfold handleSendMessage
    rw [if_neg (by simp [h1, h, h3])]
    unfold directSendPost sendMessagePre
    simp

/-- C10 witness: the direct path on an empty-response success appends the
user message and the apology bot message. -/
theorem c10_witness :
    (handleSendMessageDirect ⟨[], [], false, [], [], true, false⟩ 3 "x".data
        (Except.ok ⟨some [], none, none⟩)).messages
      = [] ++ [mkUserMessage 3 "x".data,
          directSendBotMessage 3 (Except.ok ⟨some [], none, none⟩)] :=
  (c10_empty_response_fallback ⟨[], [], false, [], [], true, false⟩ 3 "x".data
    none none rfl).2.2.2.2.1

end GrabHack
